import Mathlib

/-!
Verification of the `boilerplate_app.web` backend (source files
`web/__init__.py` and `web/routes.py`): a Starlette application with six
API handlers, two single-file routes and a static-asset mount.  Handlers
are embedded as pure Lean functions from application state and request
to a response paired with the resulting state; Python floats are
modelled as exact rationals (every float literal appearing in the
program is a dyadic rational, and each price×quantity product fits well
inside 53 bits of mantissa, so the program's float arithmetic is exact).
-/

/-- A JSON value as produced by `request.json()` / consumed by
`JSONResponse`.  `obj` models a parsed Python dict (keys unique, in
insertion order); `int`/`num` carry Python's int/float distinction,
floats as exact rationals. -/
inductive Json where
  | null : Json
  | bool : Bool → Json
  | int : Int → Json
  | num : Rat → Json
  | str : String → Json
  | arr : List Json → Json
  | obj : List (String × Json) → Json
deriving Repr

/-- Scale a nonnegative rational by powers of ten until its denominator
is 1, returning the integer mantissa and the power used
(`q = m / 10 ^ e`); `none` when the fuel runs out (which never happens
for a dyadic rational under fuel 64). -/
def ratDecCore : Nat → Rat → Option (Int × Nat)
  | 0, q => if q.den = 1 then some (q.num, 0) else none
  | k + 1, q =>
    if q.den = 1 then some (q.num, 0)
    else (ratDecCore k (q * 10)).map (fun p => (p.1, p.2 + 1))

/-- Render a rational the way Python renders the corresponding exact
float (`str(10.5) = "10.5"`, `str(1050.0) = "1050.0"`). -/
def ratPyStr (q : Rat) : String :=
  let sign := if q.num < 0 then "-" else ""
  match ratDecCore 64 (mkRat q.num.natAbs q.den) with
  | some (m, 0) => sign ++ toString m ++ ".0"
  | some (m, e) =>
    let ds := toString m
    let ds := String.mk (List.replicate (e + 1 - ds.length) '0') ++ ds
    sign ++ ds.take (ds.length - e) ++ "." ++ ds.drop (ds.length - e)
  | none => sign ++ toString q.num ++ "/" ++ toString q.den

/-- Python `repr()` of a JSON-decoded value (the rendering `str()` uses
inside containers). -/
def pyRepr : Json → String
  | .null => "None"
  | .bool true => "True"
  | .bool false => "False"
  | .int n => toString n
  | .num q => ratPyStr q
  | .str s => "'" ++ s ++ "'"
  | .arr xs => "[" ++ ", ".intercalate (xs.attach.map (fun x => pyRepr x.1)) ++ "]"
  | .obj fs =>
    "\x7b" ++ ", ".intercalate
      (fs.attach.map (fun f => "'" ++ f.1.1 ++ "': " ++ pyRepr f.1.2)) ++ "\x7d"
decreasing_by
  · have := List.sizeOf_lt_of_mem x.2
    simp_wf
    omega
  · obtain ⟨⟨a, b⟩, hf⟩ := f
    have := List.sizeOf_lt_of_mem hf
    simp_wf
    simp at this
    omega

/-- Python `str()` of a JSON-decoded value, as f-string interpolation
applies it: strings verbatim, `None`, `True`/`False`, decimal ints,
float repr; containers fall back to `repr`. -/
def pyStr : Json → String
  | .str s => s
  | j => pyRepr j

/-- Serialize a JSON value the way `JSONResponse` renders its body
(compact form; floats with their exact decimal expansion). -/
def serializeJson : Json → String
  | .null => "null"
  | .bool true => "true"
  | .bool false => "false"
  | .int n => toString n
  | .num q => ratPyStr q
  | .str s => "\"" ++ s ++ "\""
  | .arr xs => "[" ++ ",".intercalate (xs.attach.map (fun x => serializeJson x.1)) ++ "]"
  | .obj fs =>
    "\x7b" ++ ",".intercalate
      (fs.attach.map (fun f => "\"" ++ f.1.1 ++ "\":" ++ serializeJson f.1.2)) ++ "\x7d"
decreasing_by
  · have := List.sizeOf_lt_of_mem x.2
    simp_wf
    omega
  · obtain ⟨⟨a, b⟩, hf⟩ := f
    have := List.sizeOf_lt_of_mem hf
    simp_wf
    simp at this
    omega

/-- An incoming HTTP request: the inputs a handler could observe.
`jsonBody` is the result of `await request.json()` — `none` when the
body is not valid JSON (in which case `request.json()` raises). -/
structure Request where
  method : String
  path : String
  queryString : String
  headers : List (String × String)
  jsonBody : Option Json
deriving Repr

/-- Modelled from the spec: the external database collaborator (the
optional handle held in `app.state.db`); `sqlUsers` stands for the
record set `db.sql("SELECT * FROM users").pl().to_dicts()` would
produce.  The repository never constructs one. -/
structure DbHandle where
  sqlUsers : List (List (String × Json))

/-- `app.state`: the single application-scoped value, the optional
database handle (`web/__init__.py`, `lifespan`). -/
structure AppState where
  db : Option DbHandle

/-- A response body: JSON payload, rendered HTML, or raw file bytes. -/
inductive Body where
  | json : Json → Body
  | html : String → Body
  | file : String → Body
deriving Repr

/-- An HTTP response: status code and body. -/
structure Response where
  status : Nat
  body : Body
deriving Repr

/-- The bytes a response body puts on the wire (JSON serialized). -/
def serializeBody : Body → String
  | .json j => serializeJson j
  | .html s => s
  | .file s => s

/-- Modelled from the spec: the framework-default error response for an
unhandled exception inside a handler (HTTP 500, per spec section 7
"typically HTTP 500 for unhandled exceptions"). -/
def frameworkError : Response :=
  { status := 500, body := .html "Internal Server Error" }

/-- Python `dict.get(key, default)` on a parsed JSON object. -/
def dictGet (fields : List (String × Json)) (key : String) (dflt : Json) : Json :=
  match fields.lookup key with
  | some v => v
  | none => dflt

/-- `routes.py` `hello`: `JSONResponse({'message': 'Hello from Starlette API!'})`. -/
def hello (s : AppState) (r : Request) : Response × AppState :=
  ({ status := 200,
     body := .json (.obj [("message", .str "Hello from Starlette API!")]) }, s)

/-- `routes.py` `hello_post`: `data = await request.json()` then
`JSONResponse({'message': f'Hello, \x7bdata.get("name", "World")\x7d!'})`.
A malformed body makes `request.json()` raise, and a non-dict JSON body
makes `data.get` raise; either way the exception is unhandled and the
framework answers with its default error response. -/
def hello_post (s : AppState) (r : Request) : Response × AppState :=
  match r.jsonBody with
  | some (.obj fields) =>
    ({ status := 200,
       body := .json (.obj [("message",
         .str ("Hello, " ++ pyStr (dictGet fields "name" (.str "World")) ++ "!"))]) }, s)
  | _ => (frameworkError, s)

/-- `routes.py` `hello_htmx`: renders `hello_htmx.html` with the request
context.  The Jinja engine is external; the `render` parameter stands
for rendering a named template against a request. -/
def hello_htmx (render : String → Request → String)
    (s : AppState) (r : Request) : Response × AppState :=
  ({ status := 200, body := .html (render "hello_htmx.html" r) }, s)

/-- `routes.py` `main_content`: renders `main_content.html` with the
request context. -/
def main_content (render : String → Request → String)
    (s : AppState) (r : Request) : Response × AppState :=
  ({ status := 200, body := .html (render "main_content.html" r) }, s)

/-- An in-memory polars DataFrame: named columns of equal length,
in insertion order. -/
structure DataFrame where
  cols : List (String × List Json)

/-- The record of one row: one entry per column, in frame order. -/
def headsRow (cols : List (String × List Json)) : List (String × Json) :=
  cols.filterMap (fun c => c.2.head?.map (fun v => (c.1, v)))

/-- Drop the first row of every column. -/
def tailsCols (cols : List (String × List Json)) : List (String × List Json) :=
  cols.map (fun c => (c.1, c.2.tail))

/-- Transpose columns into one record per row; the first argument (the
first column's cells) drives how many rows there are, matching the
frame's uniform column length. -/
def toDictsAux : List Json → List (String × List Json) →
    List (List (String × Json))
  | [], _ => []
  | _ :: rest, cols => headsRow cols :: toDictsAux rest (tailsCols cols)

/-- polars `DataFrame.to_dicts()`: the rows as records, each record
mapping column name to that row's cell, columns in frame order. -/
def DataFrame.to_dicts (df : DataFrame) : List (List (String × Json)) :=
  match df.cols with
  | [] => []
  | c :: _ => toDictsAux c.2 df.cols

/-- Multiplication of two column cells, as polars broadcasts `*` over a
float and an int column (int×int stays int, anything with a float is
float). -/
def jsonMul : Json → Json → Json
  | .int a, .int b => .int (a * b)
  | .int a, .num b => .num ((a : Rat) * b)
  | .num a, .int b => .num (a * (b : Rat))
  | .num a, .num b => .num (a * b)
  | _, _ => .null

/-- A polars column expression as used by the program:
`pl.col(name)`, `expr * expr`, `expr.alias(name)`. -/
inductive PlExpr where
  | col : String → PlExpr
  | mul : PlExpr → PlExpr → PlExpr
  | alias : PlExpr → String → PlExpr

/-- The output column name of an expression (left operand's name for
`*`, overridden by `alias`). -/
def PlExpr.name : PlExpr → String
  | .col s => s
  | .mul a _ => a.name
  | .alias _ s => s

/-- Look a column up by name in a frame. -/
def getCol (df : DataFrame) (s : String) : List Json :=
  (df.cols.lookup s).getD []

/-- Evaluate an expression over a frame to a column of cells. -/
def PlExpr.eval : PlExpr → DataFrame → List Json
  | .col s, df => getCol df s
  | .mul a b, df => List.zipWith jsonMul (a.eval df) (b.eval df)
  | .alias a _, df => a.eval df

/-- polars `DataFrame.select(exprs)`: the frame whose columns are the
evaluated expressions under their output names. -/
def DataFrame.select (df : DataFrame) (exprs : List PlExpr) : DataFrame :=
  { cols := exprs.map (fun e => (e.name, e.eval df)) }

/-- `routes.py` `duckdb_example`'s inner `query()`: on `db is None`
build the literal 3-row name/age/city frame and take its records,
otherwise run `SELECT * FROM users` on the handle.  The boolean records
whether the `db.sql` branch ran (instrumentation for reachability). -/
def duckdb_query (db : Option DbHandle) : List (List (String × Json)) × Bool :=
  match db with
  | none =>
    let df : DataFrame := { cols := [
      ("name", [.str "Alice", .str "Bob", .str "Charlie"]),
      ("age", [.int 25, .int 30, .int 35]),
      ("city", [.str "NYC", .str "LA", .str "Chicago"]) ] }
    (df.to_dicts, false)
  | some d => (d.sqlUsers, true)

/-- `routes.py` `duckdb_example`: `JSONResponse` of the inner `query()`
result (run in a threadpool, which does not change its value). -/
def duckdb_example (s : AppState) (r : Request) : Response × AppState :=
  ({ status := 200, body := .json (.arr ((duckdb_query s.db).1.map Json.obj)) }, s)

/-- `routes.py` `polars_example`'s inner `process()` and the handler:
build the literal 5-row product/price/quantity frame
(10.5 = 21/2, 15.75 = 63/4, 20.25 = 81/4), select `product` and
`(price * quantity).alias('total')`, return the records as JSON. -/
def polars_example (s : AppState) (r : Request) : Response × AppState :=
  let df : DataFrame := { cols := [
    ("product", [.str "A", .str "B", .str "C", .str "D", .str "E"]),
    ("price", [.num (21 / 2), .num 25, .num (63 / 4), .num 30, .num (81 / 4)]),
    ("quantity", [.int 100, .int 50, .int 75, .int 25, .int 60]) ] }
  let summary := df.select
    [.col "product", .alias (.mul (.col "price") (.col "quantity")) "total"]
  ({ status := 200, body := .json (.arr (summary.to_dicts.map Json.obj)) }, s)

/-- The frontend `dist` directory: path (relative to `dist`) to file
content, `none` when the file is absent. -/
abbrev FileSystem := String → Option String

/-- Modelled from the spec: the `StaticFiles` application mounted at
`/assets` serves files from `dist/assets`, answering 404 when the file
is absent (standard static-file serving; spec: "Static file routes
return 404 (or equivalent) when the underlying file is absent"). -/
def staticFilesApp (fs : FileSystem) (path : String) : Response :=
  match fs ("assets/" ++ path) with
  | some content => { status := 200, body := .file content }
  | none => { status := 404, body := .html "Not Found" }

/-- `web/__init__.py` `/vite.svg` route:
`open(static_dir / 'vite.svg', 'rb').read()`; an absent file makes
`open` raise an unhandled error, surfaced as the framework-default
error response. -/
def viteSvgRoute (fs : FileSystem) (r : Request) : Response :=
  match fs "vite.svg" with
  | some content => { status := 200, body := .file content }
  | none => frameworkError

/-- `web/__init__.py` `/` route: `open(static_dir / 'index.html', 'rb').read()`
with the same failure mode as `/vite.svg`. -/
def rootRoute (fs : FileSystem) (r : Request) : Response :=
  match fs "index.html" with
  | some content => { status := 200, body := .file content }
  | none => frameworkError

/-- `web/__init__.py` `lifespan`: on startup, `app.state.db = None`. -/
def lifespan_startup (s : AppState) : AppState :=
  { s with db := none }

/-- One API request dispatched to its handler (the operations that see
the application state after startup). -/
inductive ApiCall where
  | helloGet : Request → ApiCall
  | helloPost : Request → ApiCall
  | helloHtmx : Request → ApiCall
  | mainContent : Request → ApiCall
  | duckdbEx : Request → ApiCall
  | polarsEx : Request → ApiCall

/-- The application state after one handler runs. -/
def apiStep (render : String → Request → String) (s : AppState) : ApiCall → AppState
  | .helloGet r => (hello s r).2
  | .helloPost r => (hello_post s r).2
  | .helloHtmx r => (hello_htmx render s r).2
  | .mainContent r => (main_content render s r).2
  | .duckdbEx r => (duckdb_example s r).2
  | .polarsEx r => (polars_example s r).2

/-- The application state after startup and a sequence of requests,
from an arbitrary pre-startup state. -/
def appRun (render : String → Request → String) (init : AppState)
    (calls : List ApiCall) : AppState :=
  calls.foldl (apiStep render) (lifespan_startup init)

/-- The GET handlers of the API mount. -/
inductive GetHandler where
  | helloGet : GetHandler
  | helloHtmx : GetHandler
  | mainContent : GetHandler
  | duckdbEx : GetHandler
  | polarsEx : GetHandler

/-- Dispatch a GET handler. -/
def runGet (render : String → Request → String) (g : GetHandler)
    (s : AppState) (r : Request) : Response × AppState :=
  match g with
  | .helloGet => hello s r
  | .helloHtmx => hello_htmx render s r
  | .mainContent => main_content render s r
  | .duckdbEx => duckdb_example s r
  | .polarsEx => polars_example s r

/-- A generic GET request used to instantiate universally quantified
request arguments at a concrete value. -/
def getReq : Request :=
  { method := "GET", path := "/", queryString := "", headers := [], jsonBody := none }

/-- The filesystem with every file absent. -/
def fsEmpty : FileSystem := fun _ => none

/-- A POST request whose body is the empty JSON object. -/
def emptyObjReq : Request :=
  { getReq with method := "POST", jsonBody := some (.obj []) }

/-- A POST request whose body maps `name` to `"Ada"`. -/
def adaReq : Request :=
  { getReq with method := "POST", jsonBody := some (.obj [("name", .str "Ada")]) }

/-- A POST request whose body maps `name` to JSON null. -/
def nullNameReq : Request :=
  { getReq with method := "POST", jsonBody := some (.obj [("name", Json.null)]) }

example : ratPyStr ((21 / 2 : Rat) * 100) = "1050.0" := by
  norm_num [ratPyStr, ratDecCore]
  rfl
example : pyStr (Json.str "Ada") = "Ada" := by simp [pyStr]
example : pyStr Json.null = "None" := by simp [pyStr, pyRepr]

/-- C5: every request to `GET /api/hello` yields exactly the JSON object
with `message` set to `"Hello from Starlette API!"`, status 200, and the
state is unchanged. -/
theorem hello_get_spec (s : AppState) (r : Request) :
    hello s r =
      ({ status := 200,
         body := .json (.obj [("message", .str "Hello from Starlette API!")]) }, s) := rfl

/-- C1: every request to `GET /api/polars-example` yields a JSON array of
exactly 5 records with exactly the keys `product` and `total`, the totals
being the element-wise price×quantity products 1050.0, 1250.0, 1181.25
(= 4725/4), 750.0 and 1215.0 paired with products A..E in order. -/
theorem polars_example_spec (s : AppState) (r : Request) :
    polars_example s r =
      ({ status := 200,
         body := .json (.arr [
           .obj [("product", .str "A"), ("total", .num 1050)],
           .obj [("product", .str "B"), ("total", .num 1250)],
           .obj [("product", .str "C"), ("total", .num (4725 / 4))],
           .obj [("product", .str "D"), ("total", .num 750)],
           .obj [("product", .str "E"), ("total", .num 1215)]]) }, s) := by
  simp [polars_example, DataFrame.select, DataFrame.to_dicts, toDictsAux,
        headsRow, tailsCols, PlExpr.eval, PlExpr.name, getCol, jsonMul,
        List.lookup, List.filterMap_cons]
  norm_num

/-- C2: while the state's `db` handle is `none`, every request to
`GET /api/duckdb-example` yields a JSON array of exactly 3 records with
exactly the keys `name`, `age`, `city` and values
(Alice,25,NYC), (Bob,30,LA), (Charlie,35,Chicago) in order. -/
theorem duckdb_example_spec (s : AppState) (r : Request) (h : s.db = none) :
    duckdb_example s r =
      ({ status := 200,
         body := .json (.arr [
           .obj [("name", .str "Alice"), ("age", .int 25), ("city", .str "NYC")],
           .obj [("name", .str "Bob"), ("age", .int 30), ("city", .str "LA")],
           .obj [("name", .str "Charlie"), ("age", .int 35), ("city", .str "Chicago")]]) },
       s) := by
  simp [duckdb_example, duckdb_query, h, DataFrame.to_dicts, toDictsAux,
        headsRow, tailsCols]

/-- Witness for C2 at the empty state and a concrete GET request. -/
theorem duckdb_example_spec_witness :
    (AppState.mk none).db = none ∧
    duckdb_example (AppState.mk none) getReq =
      ({ status := 200,
         body := .json (.arr [
           .obj [("name", .str "Alice"), ("age", .int 25), ("city", .str "NYC")],
           .obj [("name", .str "Bob"), ("age", .int 30), ("city", .str "LA")],
           .obj [("name", .str "Charlie"), ("age", .int 35), ("city", .str "Chicago")]]) },
       AppState.mk none) :=
  ⟨rfl, duckdb_example_spec (AppState.mk none) getReq rfl⟩

/-- C8: the two tabular handlers ignore every request parameter: at any
fixed state, any two requests (whatever their query string, headers or
body) receive equal responses. -/
theorem tabular_noninterference (s : AppState) (r₁ r₂ : Request) :
    duckdb_example s r₁ = duckdb_example s r₂ ∧
    polars_example s r₁ = polars_example s r₂ :=
  ⟨rfl, rfl⟩

/-- C4: `POST /api/hello` greets with the body's `name` field and
defaults to World when the key is absent: an empty-object body yields
"Hello, World!", a body mapping `name` to "Ada" yields "Hello, Ada!",
and in general a JSON-object body yields the interpolation of
`dict.get('name', 'World')`. -/
theorem hello_post_spec (s : AppState) (r₁ r₂ r : Request)
    (fields : List (String × Json))
    (h₁ : r₁.jsonBody = some (.obj []))
    (h₂ : r₂.jsonBody = some (.obj [("name", .str "Ada")]))
    (h : r.jsonBody = some (.obj fields)) :
    hello_post s r₁ =
      ({ status := 200,
         body := .json (.obj [("message", .str "Hello, World!")]) }, s) ∧
    hello_post s r₂ =
      ({ status := 200,
         body := .json (.obj [("message", .str "Hello, Ada!")]) }, s) ∧
    hello_post s r =
      ({ status := 200,
         body := .json (.obj [("message",
           .str ("Hello, " ++ pyStr (dictGet fields "name" (.str "World")) ++ "!"))]) },
       s) := by
  refine ⟨?_, ?_, ?_⟩ <;>
    simp [hello_post, h₁, h₂, h, dictGet, List.lookup, pyStr]

/-- Witness for C4 at the concrete empty-object and Ada bodies. -/
theorem hello_post_spec_witness :
    hello_post (AppState.mk none) emptyObjReq =
      ({ status := 200,
         body := .json (.obj [("message", .str "Hello, World!")]) }, AppState.mk none) ∧
    hello_post (AppState.mk none) adaReq =
      ({ status := 200,
         body := .json (.obj [("message", .str "Hello, Ada!")]) }, AppState.mk none) :=
  ⟨(hello_post_spec (AppState.mk none) emptyObjReq adaReq emptyObjReq [] rfl rfl rfl).1,
   (hello_post_spec (AppState.mk none) emptyObjReq adaReq emptyObjReq [] rfl rfl rfl).2.1⟩

/-- C9: the World default applies only to an absent key: when the
JSON-object body maps `name` to any value v, the handler interpolates v
itself; in particular a null value interpolates as "None", not as
"World". -/
theorem hello_post_present_key (s : AppState) (r rn : Request)
    (fields : List (String × Json)) (v : Json)
    (h : r.jsonBody = some (.obj fields))
    (hv : fields.lookup "name" = some v)
    (hn : rn.jsonBody = some (.obj [("name", Json.null)])) :
    hello_post s r =
      ({ status := 200,
         body := .json (.obj [("message", .str ("Hello, " ++ pyStr v ++ "!"))]) }, s) ∧
    hello_post s rn =
      ({ status := 200,
         body := .json (.obj [("message", .str "Hello, None!")]) }, s) := by
  constructor
  · simp [hello_post, h, dictGet, hv]
  · simp [hello_post, hn, dictGet, List.lookup, pyStr, pyRepr]

/-- Witness for C9 at the concrete null-valued `name` body. -/
theorem hello_post_present_key_witness :
    hello_post (AppState.mk none) nullNameReq =
      ({ status := 200,
         body := .json (.obj [("message", .str "Hello, None!")]) }, AppState.mk none) :=
  (hello_post_present_key (AppState.mk none) nullNameReq nullNameReq
    [("name", Json.null)] Json.null rfl rfl rfl).2

/-- `hello_post` returns the application state it was given, whichever
branch runs. -/
theorem hello_post_state (s : AppState) (r : Request) :
    (hello_post s r).2 = s := by
  cases h : r.jsonBody with
  | none => simp [hello_post, h]
  | some j => cases j <;> simp [hello_post, h]

/-- Every handler returns the application state it was given. -/
theorem apiStep_preserves (render : String → Request → String)
    (s : AppState) (c : ApiCall) : apiStep render s c = s := by
  cases c <;> first | rfl | exact hello_post_state _ _

/-- Folding any request sequence over the handlers leaves the state
untouched. -/
theorem foldl_apiStep (render : String → Request → String) (s : AppState)
    (calls : List ApiCall) : calls.foldl (apiStep render) s = s := by
  induction calls generalizing s with
  | nil => rfl
  | cons c cs ih => rw [List.foldl_cons, apiStep_preserves, ih]

/-- C6: the lifespan hook sets `db` to `none` at startup and no handler
ever assigns it, so after any sequence of requests from any pre-startup
state the handle is still `none`. -/
theorem db_always_none (render : String → Request → String) (init : AppState)
    (calls : List ApiCall) : (appRun render init calls).db = none := by
  unfold appRun
  rw [foldl_apiStep]
  rfl

/-- C10: under the program's state invariant, the `db.sql` branch of
`duckdb_example` is unreachable: after startup and any request sequence
the handler's inner query takes the literal-table branch. -/
theorem duckdb_branch_unreachable (render : String → Request → String)
    (init : AppState) (calls : List ApiCall) :
    (duckdb_query (appRun render init calls).db).2 = false := by
  unfold appRun
  rw [foldl_apiStep]
  rfl

/-- C7: every GET handler leaves the state unchanged, and a repeated
identical call returns the same response — in particular byte-identical
serialized bodies. -/
theorem get_idempotent (render : String → Request → String) (g : GetHandler)
    (s : AppState) (r : Request) :
    (runGet render g s r).2 = s ∧
    runGet render g ((runGet render g s r).2) r = runGet render g s r ∧
    serializeBody (runGet render g ((runGet render g s r).2) r).1.body =
      serializeBody (runGet render g s r).1.body := by
  cases g <;> exact ⟨rfl, rfl, rfl⟩

/-- C3 counterexample: with every file absent, the `/` and `/vite.svg`
routes answer the framework-default 500, not a 404 not-found. -/
theorem static_notfound_counterexample :
    (rootRoute fsEmpty getReq).status = 500 ∧
    (viteSvgRoute fsEmpty getReq).status = 500 ∧
    (rootRoute fsEmpty getReq).status ≠ 404 := by
  refine ⟨rfl, rfl, ?_⟩
  decide

/-- C3 amended: when the underlying file is absent the `/assets` mount
answers 404, while the `/` and `/vite.svg` routes surface the unhandled
read error as the framework-default 500 error response; no static-file
route answers success with a silent empty body. -/
theorem static_routes_error_spec (fs : FileSystem) (p : String) (r : Request)
    (ha : fs ("assets/" ++ p) = none)
    (hv : fs "vite.svg" = none)
    (hi : fs "index.html" = none) :
    (staticFilesApp fs p).status = 404 ∧
    (viteSvgRoute fs r).status = 500 ∧
    (rootRoute fs r).status = 500 ∧
    (¬ ((staticFilesApp fs p).status = 200 ∧
        serializeBody (staticFilesApp fs p).body = "")) ∧
    (¬ ((viteSvgRoute fs r).status = 200 ∧
        serializeBody (viteSvgRoute fs r).body = "")) ∧
    (¬ ((rootRoute fs r).status = 200 ∧
        serializeBody (rootRoute fs r).body = "")) := by
  simp [staticFilesApp, viteSvgRoute, rootRoute, frameworkError, ha, hv, hi]

/-- Witness for the amended C3 at the everything-absent filesystem. -/
theorem static_routes_error_spec_witness :
    (staticFilesApp fsEmpty "app.js").status = 404 ∧
    (viteSvgRoute fsEmpty getReq).status = 500 ∧
    (rootRoute fsEmpty getReq).status = 500 :=
  ⟨(static_routes_error_spec fsEmpty "app.js" getReq rfl rfl rfl).1,
   (static_routes_error_spec fsEmpty "app.js" getReq rfl rfl rfl).2.1,
   (static_routes_error_spec fsEmpty "app.js" getReq rfl rfl rfl).2.2.1⟩
